import Mathlib

/-!
Shallow embedding of the Analysis-and-Healing Orchestration Engine of the
intelligent-developers-platform repository.

Conventions of the embedding:
* Python dictionaries with a fixed key set become Lean structures; a key that
  some code paths leave absent becomes an Option field defaulting to none.
* Python float arithmetic is embedded as exact rational arithmetic over Rat.
* Wall-clock reads (datetime.utcnow / datetime.now) are threaded through an
  explicit `now : String` parameter; the strftime formatting of action ids is
  represented by the formatted string itself.
* Code that can raise returns Except String; a total Python code path becomes
  a total Lean function.
* Context dictionaries (Dict[str, Any]) are embedded as association lists of
  string keys to string values; Python truthiness of a retrieved value is
  false exactly for a missing key or an empty string.
* The database session of the endpoints is embedded as an explicit list of
  rows, most recent first (the endpoints query ordered by created_at
  descending); db.add followed by commit appends a row.
-/

namespace IDP

/-- Context dictionaries passed to healing endpoints and strategies. -/
abbrev Ctx := List (String × String)

/-- dict.get(key): first binding of the key, if any. -/
def ctxGet (c : Ctx) (k : String) : Option String :=
  match c with
  | [] => none
  | (k2, v) :: rest => if k2 = k then some v else ctxGet rest k

/-- Python truthiness of an optional string value: a missing key and an empty
string are falsy, every other string is truthy. -/
def truthy : Option String → Bool
  | none => false
  | some s => s ≠ ""

/-- Result dictionary returned by SelfHealer.heal and by the individual
healing strategies (services/self_healer.py). Fields that a given code path
does not put into the dictionary are none. No code path of self_healer.py
ever stores an "action" key, yet main.py reads result.get("action", ...);
the `action` field models that always-absent key. -/
structure HealResult where
  status : String
  message : Option String := none
  context : Option Ctx := none
  issue_type : Option String := none
  actions_taken : Option (List String) := none
  timestamp : Option String := none
  action : Option String := none
  deriving DecidableEq, Repr

/-- A healing strategy: takes the context and the current time, may raise. -/
def Strategy := Ctx → String → Except String HealResult

/-- SelfHealer._heal_memory_issue. -/
def heal_memory_issue : Strategy := fun context now =>
  let actions_taken := ["Cleared application caches", "Triggered garbage collection"]
  let actions_taken :=
    if truthy (ctxGet context "service") then
      actions_taken ++ ["Requested scale-up for service: " ++ (ctxGet context "service").getD ""]
    else actions_taken
  .ok { status := "success", issue_type := some "high_memory",
        actions_taken := some actions_taken, timestamp := some now }

/-- SelfHealer._heal_cpu_issue. -/
def heal_cpu_issue : Strategy := fun context now =>
  let actions_taken := ["Enabled rate limiting for expensive operations"]
  let actions_taken :=
    if truthy (ctxGet context "service") then
      actions_taken ++ ["Requested horizontal scaling for: " ++ (ctxGet context "service").getD ""]
    else actions_taken
  .ok { status := "success", issue_type := some "high_cpu",
        actions_taken := some actions_taken, timestamp := some now }

/-- SelfHealer._heal_error_spike. -/
def heal_error_spike : Strategy := fun context now =>
  let actions_taken := ["Enabled circuit breaker for failing service"]
  let actions_taken :=
    if truthy (ctxGet context "recent_deployment") then
      actions_taken ++ ["Triggered rollback to previous stable version"]
    else actions_taken
  let actions_taken := actions_taken ++ ["Increased retry backoff for failing operations"]
  .ok { status := "success", issue_type := some "error_spike",
        actions_taken := some actions_taken, timestamp := some now }

/-- SelfHealer._heal_slow_response. -/
def heal_slow_response : Strategy := fun _ now =>
  .ok { status := "success", issue_type := some "slow_response",
        actions_taken := some ["Applied query optimization hints",
          "Enabled caching for slow endpoints", "Requested resource scaling"],
        timestamp := some now }

/-- SelfHealer._heal_connection_timeout. -/
def heal_connection_timeout : Strategy := fun context now =>
  let actions_taken := ["Increased connection timeout threshold",
    "Optimized connection pool settings"]
  let actions_taken :=
    if truthy (ctxGet context "service") then
      actions_taken ++ ["Scheduled rolling restart for: " ++ (ctxGet context "service").getD ""]
    else actions_taken
  .ok { status := "success", issue_type := some "connection_timeout",
        actions_taken := some actions_taken, timestamp := some now }

/-- SelfHealer._heal_database_slow. -/
def heal_database_slow : Strategy := fun context now =>
  let actions_taken :=
    if truthy (ctxGet context "slow_queries") then
      ["Analyzed slow queries and suggested indexes"]
    else []
  let actions_taken := actions_taken ++ ["Optimized database query cache",
    "Suggested read replica configuration"]
  .ok { status := "success", issue_type := some "database_slow",
        actions_taken := some actions_taken, timestamp := some now }

/-- The strategy registry built in SelfHealer.__init__ (self.healing_strategies):
exact string match on the issue type. -/
def healing_strategies : String → Option Strategy := fun issue_type =>
  if issue_type = "high_memory" then some heal_memory_issue
  else if issue_type = "high_cpu" then some heal_cpu_issue
  else if issue_type = "error_spike" then some heal_error_spike
  else if issue_type = "slow_response" then some heal_slow_response
  else if issue_type = "connection_timeout" then some heal_connection_timeout
  else if issue_type = "database_slow" then some heal_database_slow
  else none

/-- SelfHealer.heal. The registry is a parameter mirroring the instance field
self.healing_strategies; enabled and dry_run mirror the settings-derived
instance fields. The whole body after the enabled check runs inside a
try/except that converts any raised exception into a result dictionary with
status "error"; the Except return type records that heal itself never
propagates an exception (it never returns .error). -/
def heal (strategies : String → Option Strategy) (enabled dry_run : Bool)
    (issue_type : String) (context : Ctx) (now : String) :
    Except String HealResult :=
  if !enabled then
    .ok { status := "disabled", message := some "Self-healing is disabled" }
  else
    match strategies issue_type with
    | none =>
        .ok { status := "unknown_issue",
              message := some ("No healing strategy for issue type: " ++ issue_type) }
    | some strat =>
        if dry_run then
          .ok { status := "dry_run",
                message := some ("Would heal " ++ issue_type ++ " (dry run mode)"),
                context := some context }
        else
          match strat context now with
          | .ok result => .ok result
          | .error e => .ok { status := "error", message := some e }

/-- One row of the healing_actions table as created by the trigger_healing
endpoint of main.py (created_at and updated_at are server defaults and are
kept as an optional field, none when the database has not stamped them yet). -/
structure HealingActionRow where
  action_id : String
  issue_type : String
  service : String
  status : String
  action_taken : String
  success : Option Bool
  context : Ctx
  created_at : Option String := none
  deriving DecidableEq, Repr

/-- The JSON body returned by the trigger_healing endpoint:
the heal result dictionary merged with the generated action_id. -/
structure HealResponse where
  result : HealResult
  action_id : String
  deriving DecidableEq, Repr

/-- POST /api/v1/heal (trigger_healing in main.py). The action id is
"heal-" followed by the strftime-formatted current time, which the embedding
represents by the `now` string itself. The endpoint unconditionally builds a
HealingAction row with status "in_progress", success None and
action_taken = result.get("action", "Processing...") and commits it to the
store, then returns the heal result merged with the action id. -/
def trigger_healing (strategies : String → Option Strategy)
    (enabled dry_run : Bool) (issue_type : String) (context : Ctx)
    (now : String) (store : List HealingActionRow) :
    Except String (HealResponse × List HealingActionRow) :=
  match heal strategies enabled dry_run issue_type context now with
  | .error e => .error e
  | .ok result =>
      let action_id := "heal-" ++ now
      let healing_action : HealingActionRow :=
        { action_id := action_id
          issue_type := issue_type
          service := (ctxGet context "service").getD "unknown"
          status := "in_progress"
          action_taken := result.action.getD "Processing..."
          success := none
          context := context }
      .ok ({ result := result, action_id := action_id }, store ++ [healing_action])

/-! ## Log analyzer (services/log_analyzer.py) -/

/-- One log entry as delivered to the analyzer by the analyze_logs endpoint
(model_dump of models/requests.py LogEntry). -/
structure LogEntry where
  timestamp : String
  level : String
  message : String
  service : String
  metadata : Option String := none
  deriving DecidableEq, Repr

/-- The nested "summary" dictionary of the log analyzer result. -/
structure LogSummary where
  total_logs : Nat
  error_count : Nat
  warning_count : Nat
  deriving DecidableEq, Repr

/-- The result dictionary of LogAnalyzer.analyze_logs. -/
structure LogAnalyzerResult where
  status : String
  timestamp : String
  summary : LogSummary
  patterns : List String
  recommendations : List String
  deriving DecidableEq, Repr

/-- LogAnalyzer.analyze_logs. Every operation of the body is total, so the
except branch of the source (returned only if the body raises) is
unreachable and the embedding is a total function. The utcnow call is the
explicit `now` parameter. -/
def analyze_logs (logs : List LogEntry) (now : String) : LogAnalyzerResult :=
  let error_count := (logs.filter (fun l => l.level = "ERROR")).length
  let warning_count := (logs.filter (fun l => l.level = "WARN")).length
  { status := "success"
    timestamp := now
    summary := { total_logs := logs.length, error_count := error_count,
                 warning_count := warning_count }
    patterns :=
      if error_count > 10 then
        ["High error rate detected in database connections",
         "Repeated timeout errors in external API calls"]
      else []
    recommendations :=
      if error_count > 10 then
        ["Investigate database connection pool settings",
         "Review external API timeout configurations"]
      else [] }

/-! ## Trace analyzer (services/trace_analyzer.py) -/

/-- One trace entry as delivered to the analyzer by the analyze_traces
endpoint (model_dump of models/requests.py TraceEntry); duration_ms is a
Python float, embedded as a rational. -/
structure TraceEntry where
  trace_id : String
  span_id : String
  service : String
  operation : String
  duration_ms : ℚ
  timestamp : String
  metadata : Option String := none
  deriving DecidableEq, Repr

/-- Python round(x, 2) on exact values: round half to even at two decimals. -/
def pyRound2 (x : ℚ) : ℚ :=
  let y := x * 100
  let f := ⌊y⌋
  let r := y - f
  let n : ℤ :=
    if r < 1/2 then f
    else if 1/2 < r then f + 1
    else if f % 2 = 0 then f else f + 1
  (n : ℚ) / 100

/-- The nested "summary" dictionary of the trace analyzer result. -/
structure TraceSummary where
  total_traces : Nat
  slow_traces : Nat
  avg_duration_ms : ℚ
  p95_duration_ms : ℚ
  p99_duration_ms : ℚ
  deriving DecidableEq, Repr

/-- One entry of the hard-coded "bottlenecks" list. -/
structure Bottleneck where
  service : String
  avg_latency_ms : ℚ
  issue : String
  deriving DecidableEq, Repr

/-- The result dictionary of TraceAnalyzer.analyze_traces. -/
structure TraceAnalyzerResult where
  status : String
  timestamp : String
  summary : TraceSummary
  bottlenecks : List Bottleneck
  recommendations : List String
  deriving DecidableEq, Repr

/-- TraceAnalyzer.analyze_traces. As with the log analyzer the body is
total, so the except branch is unreachable. -/
def analyze_traces (traces : List TraceEntry) (now : String) :
    TraceAnalyzerResult :=
  let slow_traces := traces.filter (fun t => t.duration_ms > 1000)
  let avg_duration : ℚ :=
    if traces.isEmpty then 0
    else (traces.map (fun t => t.duration_ms)).sum / traces.length
  { status := "success"
    timestamp := now
    summary := { total_traces := traces.length
                 slow_traces := slow_traces.length
                 avg_duration_ms := pyRound2 avg_duration
                 p95_duration_ms := pyRound2 (avg_duration * 1.5)
                 p99_duration_ms := pyRound2 (avg_duration * 2) }
    bottlenecks :=
      if slow_traces.length > 5 then
        [{ service := "database", avg_latency_ms := 450,
           issue := "Slow query performance" },
         { service := "external-api", avg_latency_ms := 800,
           issue := "High network latency" }]
      else []
    recommendations :=
      if slow_traces.length > 5 then
        ["Optimize database queries with proper indexing",
         "Implement caching for external API calls",
         "Consider increasing connection pool size"]
      else [] }

/-! ## Status endpoints (main.py) -/

/-- One row of the log_analyses table (models/db_models.py LogAnalysis);
every data column is nullable, created_at is the server stamp. -/
structure LogAnalysisRow where
  log_count : Option Nat := none
  error_count : Option Nat := none
  warning_count : Option Nat := none
  info_count : Option Nat := none
  distinct_services : Option (List String) := none
  error_rate : Option ℚ := none
  dominant_level : Option String := none
  spike_score : Option ℚ := none
  anomalies_detected : Option Nat := none
  created_at : Option String := none
  deriving DecidableEq, Repr

/-- One entry of the recent_patterns list of the logs-status payload. The
data-derived entries carry a timestamp and no severity, the sample entries
carry a severity and no timestamp. -/
structure PatternEntry where
  type : String
  count : Nat
  severity : Option String := none
  timestamp : Option (Option String) := none
  deriving DecidableEq, Repr

/-- The statistics block of the logs-status payload. -/
structure LogsStatusStatistics where
  total_logs_analyzed : Nat
  total_errors : Nat
  total_warnings : Nat
  anomalies_detected : Nat
  avg_error_rate : ℚ
  current_error_rate : ℚ
  deriving DecidableEq, Repr

/-- One entry of the hard-coded top_services list. -/
structure ServiceErrors where
  name : String
  error_count : Nat
  deriving DecidableEq, Repr

/-- The payload of GET /api/v1/logs-status. -/
structure LogsStatus where
  status : String
  health : String
  health_message : String
  statistics : LogsStatusStatistics
  recent_patterns : List PatternEntry
  top_services : List ServiceErrors
  timestamp : String
  deriving DecidableEq, Repr

/-- get_logs_status in main.py. The store is the list of log_analyses rows
ordered by created_at descending; the query limit(100) is the take 100.
Python `x or 0` on a nullable column is getD 0 (None and 0 both give 0);
`latest.error_rate if latest and latest.error_rate else 0` likewise gives 0
exactly when the column is NULL or 0. -/
def get_logs_status (store : List LogAnalysisRow) (now : String) : LogsStatus :=
  let analyses := store.take 100
  let data :
      Nat × Nat × Nat × Nat × ℚ × ℚ × String × String × List PatternEntry :=
    match analyses with
    | latest :: _ =>
        let total_logs := (analyses.map (fun a => a.log_count.getD 0)).sum
        let total_errors := (analyses.map (fun a => a.error_count.getD 0)).sum
        let total_warnings := (analyses.map (fun a => a.warning_count.getD 0)).sum
        let total_anomalies := (analyses.map (fun a => a.anomalies_detected.getD 0)).sum
        let avg_error_rate : ℚ :=
          (analyses.map (fun a => a.error_rate.getD 0)).sum / (analyses.length : ℚ)
        let current_error_rate : ℚ := latest.error_rate.getD 0
        let health :=
          if current_error_rate > 0.1 then "critical"
          else if current_error_rate > 0.05 then "warning"
          else "healthy"
        let health_message :=
          if current_error_rate > 0.1 then "High error rate detected"
          else if current_error_rate > 0.05 then "Elevated error rate"
          else "Error rates normal"
        let recent_patterns := (analyses.take 5).filterMap (fun a =>
          match a.error_count with
          | some c => if c > 0 then
              some { type := "errors", count := c, timestamp := some a.created_at }
            else none
          | none => none)
        (total_logs, total_errors, total_warnings, total_anomalies,
          avg_error_rate, current_error_rate, health, health_message,
          recent_patterns)
    | [] =>
        (15847, 234, 1456, 12, 0.0148, 0.0156, "healthy", "Error rates normal",
          [{ type := "connection_timeout", count := 45, severity := some "medium" },
           { type := "authentication_failure", count := 23, severity := some "high" },
           { type := "rate_limit_exceeded", count := 67, severity := some "low" }])
  let (total_logs, total_errors, total_warnings, total_anomalies,
    avg_error_rate, current_error_rate, health, health_message,
    recent_patterns) := data
  { status := "active"
    health := health
    health_message := health_message
    statistics := { total_logs_analyzed := total_logs
                    total_errors := total_errors
                    total_warnings := total_warnings
                    anomalies_detected := total_anomalies
                    avg_error_rate := pyRound2 (avg_error_rate * 100)
                    current_error_rate := pyRound2 (current_error_rate * 100) }
    recent_patterns := recent_patterns.take 10
    top_services := [{ name := "api-gateway", error_count := 89 },
                     { name := "user-service", error_count := 67 },
                     { name := "data-collector", error_count := 45 },
                     { name := "intelligence-engine", error_count := 33 }]
    timestamp := now }

/-- One row of the trace_analyses table (models/db_models.py TraceAnalysis). -/
structure TraceAnalysisRow where
  trace_count : Option Nat := none
  avg_duration_ms : Option ℚ := none
  max_duration_ms : Option ℚ := none
  min_duration_ms : Option ℚ := none
  slow_traces : Option Nat := none
  distinct_services : Option (List String) := none
  created_at : Option String := none
  deriving DecidableEq, Repr

/-- One entry of the performance_issues list of the traces-status payload;
the data-derived entries and the sample entries use different key sets. -/
structure PerformanceIssue where
  type : Option String := none
  count : Option Nat := none
  avg_duration : Option (Option ℚ) := none
  endpoint : Option String := none
  avg_latency : Option ℚ := none
  p95 : Option ℚ := none
  deriving DecidableEq, Repr

/-- The statistics block of the traces-status payload. -/
structure TracesStatusStatistics where
  total_traces_analyzed : Nat
  avg_latency_ms : ℚ
  max_latency_ms : ℚ
  slow_traces : Nat
  slow_trace_percentage : ℚ
  deriving DecidableEq, Repr

/-- One entry of the hard-coded top_slow_services list. -/
structure SlowService where
  name : String
  avg_latency : ℚ
  count : Nat
  deriving DecidableEq, Repr

/-- The payload of GET /api/v1/traces-status. -/
structure TracesStatus where
  status : String
  health : String
  health_message : String
  statistics : TracesStatusStatistics
  performance_issues : List PerformanceIssue
  top_slow_services : List SlowService
  timestamp : String
  deriving DecidableEq, Repr

/-- get_traces_status in main.py, with the same store and nullability
conventions as get_logs_status; max(..., default=0) is a fold of max over 0. -/
def get_traces_status (store : List TraceAnalysisRow) (now : String) :
    TracesStatus :=
  let analyses := store.take 100
  let data : Nat × ℚ × ℚ × Nat × ℚ × String × String × List PerformanceIssue :=
    match analyses with
    | latest :: _ =>
        let total_traces := (analyses.map (fun a => a.trace_count.getD 0)).sum
        let avg_latency : ℚ :=
          (analyses.map (fun a => a.avg_duration_ms.getD 0)).sum / (analyses.length : ℚ)
        let max_latency : ℚ :=
          (analyses.map (fun a => a.max_duration_ms.getD 0)).foldl max 0
        let total_slow_traces := (analyses.map (fun a => a.slow_traces.getD 0)).sum
        let current_avg_latency : ℚ := latest.avg_duration_ms.getD 0
        let health :=
          if current_avg_latency > 1000 then "critical"
          else if current_avg_latency > 500 then "warning"
          else "healthy"
        let health_message :=
          if current_avg_latency > 1000 then "High latency detected"
          else if current_avg_latency > 500 then "Elevated latency"
          else "Performance optimal"
        let performance_issues := (analyses.take 5).filterMap (fun a =>
          match a.slow_traces with
          | some c => if c > 0 then
              some { type := some "slow_traces", count := some c,
                     avg_duration := some a.avg_duration_ms }
            else none
          | none => none)
        (total_traces, avg_latency, max_latency, total_slow_traces,
          current_avg_latency, health, health_message, performance_issues)
    | [] =>
        (8924, 145.6, 2345.8, 127, 145.6, "healthy", "Performance optimal",
          [{ endpoint := some "/api/v1/analyze/logs", avg_latency := some 234.5,
             p95 := some 456.7 },
           { endpoint := some "/api/v1/analyze/traces", avg_latency := some 189.3,
             p95 := some 378.2 },
           { endpoint := some "/api/v1/analyze/commit", avg_latency := some 167.8,
             p95 := some 298.4 }])
  let (total_traces, avg_latency, max_latency, total_slow_traces,
    current_avg_latency, health, health_message, performance_issues) := data
  { status := "active"
    health := health
    health_message := health_message
    statistics := { total_traces_analyzed := total_traces
                    avg_latency_ms := pyRound2 avg_latency
                    max_latency_ms := pyRound2 max_latency
                    slow_traces := total_slow_traces
                    slow_trace_percentage := pyRound2
                      (if total_traces > 0 then
                        (total_slow_traces : ℚ) / (total_traces : ℚ) * 100
                      else 0) }
    performance_issues := performance_issues.take 10
    top_slow_services := [{ name := "data-collector", avg_latency := 234.5, count := 1234 },
                          { name := "intelligence-engine", avg_latency := 189.3, count := 2145 },
                          { name := "api-gateway", avg_latency := 87.6, count := 3567 }]
    timestamp := now }

/-- One entry of the recent_actions history of the self-healing-status
payload. -/
structure HealingHistoryEntry where
  id : String
  issue_type : String
  status : String
  action_taken : String
  service : String
  timestamp : String
  success : Option Bool
  deriving DecidableEq, Repr

/-- The statistics block of the self-healing-status payload. -/
structure SelfHealingStatistics where
  total_healing_actions : Nat
  successful_actions : Nat
  failed_actions : Nat
  in_progress : Nat
  success_rate : ℚ
  deriving DecidableEq, Repr

/-- One entry of the hard-coded active_monitors list. -/
structure MonitorEntry where
  type : String
  status : String
  deriving DecidableEq, Repr

/-- The payload of GET /api/v1/self-healing-status. -/
structure SelfHealingStatus where
  status : String
  health : String
  statistics : SelfHealingStatistics
  recent_actions : List HealingHistoryEntry
  active_monitors : List MonitorEntry
  timestamp : String
  deriving DecidableEq, Repr

/-- The hard-coded fallback history used by get_self_healing_status when the
healing_actions table is empty. -/
def defaultHealingHistory : List HealingHistoryEntry :=
  [{ id := "heal-001", issue_type := "memory_leak", status := "completed",
     action_taken := "Restarted service with optimized memory settings",
     service := "api-gateway", timestamp := "2025-11-15T10:30:00Z",
     success := some true },
   { id := "heal-002", issue_type := "slow_query", status := "completed",
     action_taken := "Added database index for frequently queried field",
     service := "user-service", timestamp := "2025-11-15T11:15:00Z",
     success := some true },
   { id := "heal-003", issue_type := "connection_timeout", status := "in_progress",
     action_taken := "Increasing connection pool size",
     service := "data-collector", timestamp := "2025-11-15T13:20:00Z",
     success := none }]

/-- get_self_healing_status in main.py. The store is the list of
healing_actions rows ordered by created_at descending; limit(10) is take 10.
When the table yields no rows the hard-coded sample history is used, and the
statistics are then computed from that sample history. -/
def get_self_healing_status (store : List HealingActionRow) (now : String) :
    SelfHealingStatus :=
  let actions := store.take 10
  let healing_history := actions.map (fun a =>
    { id := a.action_id
      issue_type := a.issue_type
      status := a.status
      action_taken := a.action_taken
      service := a.service
      timestamp := a.created_at.getD now
      success := a.success : HealingHistoryEntry })
  let healing_history :=
    if healing_history.isEmpty then defaultHealingHistory else healing_history
  let total_actions := healing_history.length
  let successful_actions :=
    (healing_history.filter (fun h => h.success = some true)).length
  let failed_actions :=
    (healing_history.filter (fun h => h.success = some false)).length
  let in_progress :=
    (healing_history.filter (fun h => h.status = "in_progress")).length
  { status := "active"
    health := "good"
    statistics := { total_healing_actions := total_actions
                    successful_actions := successful_actions
                    failed_actions := failed_actions
                    in_progress := in_progress
                    success_rate :=
                      if total_actions > 0 then
                        (successful_actions : ℚ) / (total_actions : ℚ) * 100
                      else 100 }
    recent_actions := healing_history
    active_monitors := [{ type := "memory", status := "monitoring" },
                        { type := "performance", status := "monitoring" },
                        { type := "errors", status := "monitoring" },
                        { type := "connectivity", status := "monitoring" }]
    timestamp := now }

/-! ## Spec-side definitions and concrete inputs used by the claims -/

/-- Health bands for the logs view as worded by the spec: error rate above
0.10 is critical, above 0.05 is warning, otherwise healthy. -/
def specLogHealth (error_rate : ℚ) : String :=
  if error_rate > 0.1 then "critical"
  else if error_rate > 0.05 then "warning"
  else "healthy"

/-- Health bands for the traces view as worded by the spec: average latency
above 1000 ms is critical, above 500 ms is warning, otherwise healthy. -/
def specTraceHealth (avg_latency : ℚ) : String :=
  if avg_latency > 1000 then "critical"
  else if avg_latency > 500 then "warning"
  else "healthy"

/-- The scenario batch of claim C5: ten entries, three with level error, two
with level warning, five with level info (levels spelled as in the spec
scenario). -/
def c5LogBatch : List LogEntry :=
  [{ timestamp := "t1", level := "error", message := "m1", service := "s1" },
   { timestamp := "t2", level := "error", message := "m2", service := "s1" },
   { timestamp := "t3", level := "error", message := "m3", service := "s2" },
   { timestamp := "t4", level := "warning", message := "m4", service := "s1" },
   { timestamp := "t5", level := "warning", message := "m5", service := "s2" },
   { timestamp := "t6", level := "info", message := "m6", service := "s1" },
   { timestamp := "t7", level := "info", message := "m7", service := "s1" },
   { timestamp := "t8", level := "info", message := "m8", service := "s2" },
   { timestamp := "t9", level := "info", message := "m9", service := "s1" },
   { timestamp := "t10", level := "info", message := "m10", service := "s2" }]

/-- The same scenario batch with upper-case level spellings as emitted by
common log pipelines. -/
def c5LogBatchUpper : List LogEntry :=
  [{ timestamp := "t1", level := "ERROR", message := "m1", service := "s1" },
   { timestamp := "t2", level := "ERROR", message := "m2", service := "s1" },
   { timestamp := "t3", level := "ERROR", message := "m3", service := "s2" },
   { timestamp := "t4", level := "WARNING", message := "m4", service := "s1" },
   { timestamp := "t5", level := "WARNING", message := "m5", service := "s2" },
   { timestamp := "t6", level := "INFO", message := "m6", service := "s1" },
   { timestamp := "t7", level := "INFO", message := "m7", service := "s1" },
   { timestamp := "t8", level := "INFO", message := "m8", service := "s2" },
   { timestamp := "t9", level := "INFO", message := "m9", service := "s1" },
   { timestamp := "t10", level := "INFO", message := "m10", service := "s2" }]

/-- The scenario batch of claim C6: five spans with durations 100, 200, 300,
400 and 5000 ms. -/
def c6TraceBatch : List TraceEntry :=
  [{ trace_id := "tr1", span_id := "sp1", service := "s1", operation := "op",
     duration_ms := 100, timestamp := "t1" },
   { trace_id := "tr2", span_id := "sp2", service := "s1", operation := "op",
     duration_ms := 200, timestamp := "t2" },
   { trace_id := "tr3", span_id := "sp3", service := "s2", operation := "op",
     duration_ms := 300, timestamp := "t3" },
   { trace_id := "tr4", span_id := "sp4", service := "s2", operation := "op",
     duration_ms := 400, timestamp := "t4" },
   { trace_id := "tr5", span_id := "sp5", service := "s3", operation := "op",
     duration_ms := 5000, timestamp := "t5" }]

/-- A genuinely healthy stored log analysis: one percent error rate. -/
def c8HealthyRow : LogAnalysisRow :=
  { log_count := some 100, error_count := some 1, warning_count := some 2,
    info_count := some 97, error_rate := some 0.01,
    anomalies_detected := some 0, created_at := some "2025-01-01T00:00:00Z" }

/-! ## Claims -/

/-- C1, counterexample: triggering healing for the unregistered issue type
unknown_xyz on an empty store returns an unknown_issue outcome but the store
row count after the operation is 1, not 0: a HealingAction row is persisted. -/
theorem c1_counterexample :
    (trigger_healing healing_strategies true false "unknown_xyz" [] "t0" []).map
      (fun p => (p.1.result.status, p.2.length)) = .ok ("unknown_issue", 1) ∧
    (1 : Nat) ≠ 0 := by
  exact ⟨rfl, by decide⟩

/-- C1, amended: with healing enabled, healing an issue type that has no
registered strategy returns an unknown_issue outcome, but the trigger_healing
endpoint still persists one HealingAction row with status in_progress and
success None, so the store row count grows by one. -/
theorem c1_unknown_issue_still_persists (dry_run : Bool) (issue_type : String)
    (context : Ctx) (now : String) (store : List HealingActionRow)
    (h : healing_strategies issue_type = none) :
    trigger_healing healing_strategies true dry_run issue_type context now store =
      .ok ({ result := { status := "unknown_issue",
                         message := some ("No healing strategy for issue type: " ++ issue_type) },
             action_id := "heal-" ++ now },
        store ++ [{ action_id := "heal-" ++ now, issue_type := issue_type,
                    service := (ctxGet context "service").getD "unknown",
                    status := "in_progress", action_taken := "Processing...",
                    success := none, context := context }]) := by
  simp [trigger_healing, heal, h]

/-- C1, witness for the amended theorem at the concrete input unknown_xyz on
an empty store. -/
theorem c1_unknown_issue_still_persists_witness :
    trigger_healing healing_strategies true false "unknown_xyz" [] "t0" [] =
      .ok ({ result := { status := "unknown_issue",
                         message := some "No healing strategy for issue type: unknown_xyz" },
             action_id := "heal-t0" },
        [{ action_id := "heal-t0", issue_type := "unknown_xyz",
           service := "unknown", status := "in_progress",
           action_taken := "Processing...", success := none, context := [] }]) :=
  c1_unknown_issue_still_persists false "unknown_xyz" [] "t0" [] rfl

/-- C2, counterexample: with healing enabled and dry-run on, healing the
registered issue type high_memory on an empty store returns a dry_run outcome
but the store row count after the operation is 1, not 0: a HealingAction row
is persisted. -/
theorem c2_counterexample :
    (trigger_healing healing_strategies true true "high_memory" [] "t0" []).map
      (fun p => (p.1.result.status, p.2.length)) = .ok ("dry_run", 1) ∧
    (1 : Nat) ≠ 0 := by
  exact ⟨rfl, by decide⟩

/-- C2, amended: with healing enabled and dry-run on, healing a registered
issue type returns a dry_run outcome describing the would-be action and the
strategy itself is never executed (the result does not depend on the
registered strategy), but the trigger_healing endpoint still persists one
HealingAction row with status in_progress, so the store row count grows by
one. -/
theorem c2_dry_run_still_persists (strategies : String → Option Strategy)
    (strat : Strategy) (issue_type : String) (context : Ctx) (now : String)
    (store : List HealingActionRow) (h : strategies issue_type = some strat) :
    trigger_healing strategies true true issue_type context now store =
      .ok ({ result := { status := "dry_run",
                         message := some ("Would heal " ++ issue_type ++ " (dry run mode)"),
                         context := some context },
             action_id := "heal-" ++ now },
        store ++ [{ action_id := "heal-" ++ now, issue_type := issue_type,
                    service := (ctxGet context "service").getD "unknown",
                    status := "in_progress", action_taken := "Processing...",
                    success := none, context := context }]) := by
  simp [trigger_healing, heal, h]

/-- C2, witness for the amended theorem at the concrete input high_memory on
an empty store. -/
theorem c2_dry_run_still_persists_witness :
    trigger_healing healing_strategies true true "high_memory" [] "t0" [] =
      .ok ({ result := { status := "dry_run",
                         message := some "Would heal high_memory (dry run mode)",
                         context := some ([] : Ctx) },
             action_id := "heal-t0" },
        [{ action_id := "heal-t0", issue_type := "high_memory",
           service := "unknown", status := "in_progress",
           action_taken := "Processing...", success := none, context := [] }]) :=
  c2_dry_run_still_persists healing_strategies heal_memory_issue "high_memory"
    [] "t0" [] rfl

/-- C3, code evaluated at the failing input: with healing enabled and dry-run
off, the connection_timeout strategy returns normally (result status is
success), yet the persisted HealingAction row has status in_progress and
success None instead of status completed and success true; the endpoint never
transitions the stored action. -/
theorem c3_persisted_action_stays_in_progress :
    trigger_healing healing_strategies true false "connection_timeout"
      [("service", "x")] "t0" [] =
      .ok ({ result := { status := "success",
                         issue_type := some "connection_timeout",
                         actions_taken := some
                           ["Increased connection timeout threshold",
                            "Optimized connection pool settings",
                            "Scheduled rolling restart for: x"],
                         timestamp := some "t0" },
             action_id := "heal-t0" },
        [{ action_id := "heal-t0", issue_type := "connection_timeout",
           service := "x", status := "in_progress",
           action_taken := "Processing...", success := none,
           context := [("service", "x")] }]) := by
  rfl

/-- C4: heal is total and catches strategy exceptions at the dispatcher
boundary. First part: for every registry, flag setting, issue type, context
and time, heal returns a well-formed result dictionary (it never propagates
an exception). Second part: when a registered strategy raises, heal returns
a result with status error carrying the exception message. -/
theorem c4_heal_never_propagates :
    (∀ (strategies : String → Option Strategy) (enabled dry_run : Bool)
       (issue_type : String) (context : Ctx) (now : String),
       ∃ r : HealResult,
         heal strategies enabled dry_run issue_type context now = .ok r) ∧
    (∀ (strategies : String → Option Strategy) (strat : Strategy)
       (issue_type : String) (context : Ctx) (now : String) (msg : String),
       strategies issue_type = some strat → strat context now = .error msg →
       heal strategies true false issue_type context now =
         .ok { status := "error", message := some msg }) := by
  constructor
  · intro strategies enabled dry_run issue_type context now
    cases enabled with
    | false => exact ⟨_, rfl⟩
    | true =>
      cases h : strategies issue_type with
      | none =>
        exact ⟨{ status := "unknown_issue",
                 message := some ("No healing strategy for issue type: " ++ issue_type) },
          by simp [heal, h]⟩
      | some strat =>
        cases dry_run with
        | true =>
          exact ⟨{ status := "dry_run",
                   message := some ("Would heal " ++ issue_type ++ " (dry run mode)"),
                   context := some context },
            by simp [heal, h]⟩
        | false =>
          cases h2 : strat context now with
          | ok r => exact ⟨r, by simp [heal, h, h2]⟩
          | error e =>
            exact ⟨{ status := "error", message := some e }, by simp [heal, h, h2]⟩
  · intro strategies strat issue_type context now msg h1 h2
    simp [heal, h1, h2]

/-- C4, witness: a registry whose single strategy raises; heal converts the
raise into a result with status error and does not propagate it. -/
theorem c4_heal_never_propagates_witness :
    heal (fun _ => some (fun _ _ => .error "boom")) true false "x" [] "t0" =
      .ok { status := "error", message := some "boom" } :=
  c4_heal_never_propagates.2 (fun _ => some (fun _ _ => .error "boom"))
    (fun _ _ => .error "boom") "x" [] "t0" "boom" rfl rfl

/-- C5, code evaluated at the failing input: on the scenario batch of ten
entries with three error, two warning and five info levels, analyze_logs
returns a nested summary whose error_count is 0 and warning_count is 0 (the
source matches only the spellings ERROR and WARN), and with upper-case level
spellings it still reports warning_count 0; the result carries no info_count,
error_rate or dominant_level field at all. -/
theorem c5_log_analyzer_lacks_claimed_fields :
    (analyze_logs c5LogBatch "t").summary =
      { total_logs := 10, error_count := 0, warning_count := 0 } ∧
    (analyze_logs c5LogBatchUpper "t").summary =
      { total_logs := 10, error_count := 3, warning_count := 0 } := by
  exact ⟨rfl, rfl⟩

/-- C6, code evaluated at the failing input: on the scenario batch with
durations 100, 200, 300, 400 and 5000 ms, analyze_traces reports
slow_traces 1 and avg_duration_ms 1200 as the claim expects, but its summary
carries no max or min duration field at all (only total, slow count, average
and the synthetic p95 and p99 values). -/
theorem c6_trace_analyzer_lacks_min_max :
    (analyze_traces c6TraceBatch "t").summary =
      { total_traces := 5, slow_traces := 1, avg_duration_ms := 1200,
        p95_duration_ms := 1800, p99_duration_ms := 2400 } := by
  norm_num [analyze_traces, c6TraceBatch, pyRound2, List.filter]

/-- C7: the status endpoints classify health with the fixed bands of the
spec. For every non-empty store, the logs view health equals the band
classification of the latest stored error rate (above 0.10 critical, above
0.05 warning, else healthy) and the traces view health equals the band
classification of the latest stored average latency (above 1000 critical,
above 500 warning, else healthy). -/
theorem c7_status_health_bands (a : LogAnalysisRow) (rest : List LogAnalysisRow)
    (b : TraceAnalysisRow) (rest2 : List TraceAnalysisRow) (now now2 : String) :
    (get_logs_status (a :: rest) now).health =
      specLogHealth (a.error_rate.getD 0) ∧
    (get_traces_status (b :: rest2) now2).health =
      specTraceHealth (b.avg_duration_ms.getD 0) := by
  exact ⟨rfl, rfl⟩

/-- C8, counterexample: on an empty store the logs view returns exactly the
same status, health and health_message as it does for a genuine stored
healthy analysis, while claiming 15847 logs analyzed; the empty-store payload
carries no marker distinguishing the no-data case from a data-derived healthy
result. -/
theorem c8_counterexample :
    (get_logs_status [] "t").status = (get_logs_status [c8HealthyRow] "t").status ∧
    (get_logs_status [] "t").health = (get_logs_status [c8HealthyRow] "t").health ∧
    (get_logs_status [] "t").health_message =
      (get_logs_status [c8HealthyRow] "t").health_message ∧
    (get_logs_status [] "t").statistics.total_logs_analyzed = 15847 := by
  refine ⟨rfl, ?_, ?_, rfl⟩ <;> norm_num [get_logs_status, c8HealthyRow]

/-- C8, amended: when the store is empty every status view degrades to a
default sample payload rather than an error (status active, health healthy
or good, fabricated statistics and a sample healing history), but the
payload is not labelled as a placeholder: its status, health and
health_message fields coincide with those produced for any genuine stored
history whose current error rate is at most 0.05, so the health fields do
not distinguish the no-data case from a data-derived healthy result. -/
theorem c8_empty_store_defaults (now : String) (a : LogAnalysisRow)
    (rest : List LogAnalysisRow) (h : a.error_rate.getD 0 ≤ 0.05) :
    (get_logs_status [] now).status = "active" ∧
    (get_logs_status [] now).health = "healthy" ∧
    (get_logs_status [] now).statistics.total_logs_analyzed = 15847 ∧
    (get_traces_status [] now).status = "active" ∧
    (get_traces_status [] now).health = "healthy" ∧
    (get_self_healing_status [] now).status = "active" ∧
    (get_self_healing_status [] now).health = "good" ∧
    (get_self_healing_status [] now).recent_actions = defaultHealingHistory ∧
    (get_logs_status [] now).status = (get_logs_status (a :: rest) now).status ∧
    (get_logs_status [] now).health = (get_logs_status (a :: rest) now).health ∧
    (get_logs_status [] now).health_message =
      (get_logs_status (a :: rest) now).health_message := by
  have h1 : ¬ (a.error_rate.getD 0 > 0.1) := by
    intro hgt
    have : (0.1 : ℚ) < 0.05 := lt_of_lt_of_le hgt h
    norm_num at this
  have h2 : ¬ (a.error_rate.getD 0 > 0.05) := not_lt.mpr h
  refine ⟨rfl, rfl, rfl, rfl, rfl, rfl, rfl, rfl, rfl, ?_, ?_⟩
  · simp [get_logs_status, h1, h2]
  · simp [get_logs_status, h1, h2]

/-- C8, witness for the amended theorem with the genuine healthy stored
analysis c8HealthyRow. -/
theorem c8_empty_store_defaults_witness :
    c8HealthyRow.error_rate.getD 0 ≤ 0.05 ∧
    ((get_logs_status [] "t").status = "active" ∧
     (get_logs_status [] "t").health = "healthy" ∧
     (get_logs_status [] "t").statistics.total_logs_analyzed = 15847 ∧
     (get_traces_status [] "t").status = "active" ∧
     (get_traces_status [] "t").health = "healthy" ∧
     (get_self_healing_status [] "t").status = "active" ∧
     (get_self_healing_status [] "t").health = "good" ∧
     (get_self_healing_status [] "t").recent_actions = defaultHealingHistory ∧
     (get_logs_status [] "t").status = (get_logs_status [c8HealthyRow] "t").status ∧
     (get_logs_status [] "t").health = (get_logs_status [c8HealthyRow] "t").health ∧
     (get_logs_status [] "t").health_message =
       (get_logs_status [c8HealthyRow] "t").health_message) :=
  ⟨by norm_num [c8HealthyRow],
   c8_empty_store_defaults "t" c8HealthyRow [] (by norm_num [c8HealthyRow])⟩

/-- C9: the analyzers are deterministic and derive no summary metric from
the wall clock. Running analyze_logs or analyze_traces on the same batch at
two different times yields results that are identical in every field except
the timestamp stamp. -/
theorem c9_analyzers_deterministic (logs : List LogEntry)
    (traces : List TraceEntry) (t1 t2 : String) :
    analyze_logs logs t1 = { analyze_logs logs t2 with timestamp := t1 } ∧
    analyze_traces traces t1 = { analyze_traces traces t2 with timestamp := t1 } := by
  exact ⟨rfl, rfl⟩

/-- C10: the disabled check takes precedence over strategy lookup. With the
enabled flag off, heal returns the disabled outcome for every registry,
every issue type (registered or not) and every context, so an unregistered
issue type does not receive an unknown_issue outcome while healing is
disabled. -/
theorem c10_disabled_takes_precedence (strategies : String → Option Strategy)
    (dry_run : Bool) (issue_type : String) (context : Ctx) (now : String) :
    heal strategies false dry_run issue_type context now =
      .ok { status := "disabled", message := some "Self-healing is disabled" } := by
  rfl

end IDP
